import Mathlib

/-
Verification of the `html_to_pdf.py` script from MusicVisualizer.

The script is a linear chain of three PDF-conversion attempts with
hard-coded paths.  We embed it shallowly: every interaction with the
outside world (subprocess invocations, module imports, the rendering
call, temp-file operations) is resolved by an `Env` record describing
how the environment behaves, and running the script produces a trace
of observable events together with a termination result (normal
return, or an uncaught exception propagating out of `html_to_pdf`).
-/

namespace HtmlToPdf

/-- Hard-coded input HTML path (line 7 of the source). -/
def html_file : String := "/Users/matvey/Dev/MusicVisualizer/OPTIMIZATION_ROADMAP.html"

/-- Hard-coded output PDF path (line 8 of the source). -/
def pdf_file : String := "/Users/matvey/Dev/MusicVisualizer/OPTIMIZATION_ROADMAP.pdf"

/-- A Python exception, abstracted to its class name and message.
All exceptions modelled here are `Exception` subclasses (so the
`except Exception` clause of Attempt C catches all of them); the
`except ImportError` clause of Attempt B checks the class name. -/
structure Exn where
  name : String
  msg : String
deriving DecidableEq

/-- Outcome of a `subprocess.run` call: either the child process ran and
returned an exit code, or the call itself raised an exception. -/
inductive RunOutcome where
  | ret (code : Int)
  | exn (e : Exn)
deriving DecidableEq

/-- Observable events performed by the script, in program order. -/
inductive Event where
  | runProc (args : List String)
  | print (s : String)
  | importMod (m : String)
  | render (input output : String)
  | createTemp (path content : String)
  | chmod (path : String) (mode : Nat)
  | unlink (path : String)
deriving DecidableEq

/-- The environment: how each external interaction of one execution
resolves.  Fields are consulted only when the corresponding source
line is reached. -/
structure Env where
  /-- outcome of `subprocess.run(["which", "wkhtmltopdf"])` (line 12) -/
  whichOutcome : RunOutcome
  /-- outcome of `subprocess.run(["wkhtmltopdf", html_file, pdf_file])` (line 14) -/
  toolOutcome : RunOutcome
  /-- whether `import weasyprint` succeeds (line 22); if not it raises ImportError -/
  weasyAvailable : Bool
  /-- `none` if `write_pdf` succeeds, `some e` if it raises `e` (line 23) -/
  renderOutcome : Option Exn
  /-- path chosen by `tempfile.NamedTemporaryFile` (line 41) -/
  tmpPath : String
  /-- `none` if creating and writing the temp file succeeds (lines 41-43) -/
  tmpCreateOutcome : Option Exn
  /-- `none` if `os.chmod` succeeds (line 45) -/
  chmodOutcome : Option Exn
  /-- outcome of `subprocess.run([script_path])` (line 46) -/
  scriptRunOutcome : RunOutcome
  /-- `none` if `os.unlink` succeeds (line 47) -/
  unlinkOutcome : Option Exn
deriving DecidableEq

/-- Message printed on line 15. -/
def wkhtmltopdfMsg : String := "PDF created using wkhtmltopdf: " ++ pdf_file

/-- Message printed on line 24. -/
def weasyMsg : String := "PDF created using WeasyPrint: " ++ pdf_file

/-- Message printed on line 49. -/
def safariMsg : String := "Attempted to print via Safari - check your Downloads folder for the PDF"

/-- Message printed on line 52 when the fallback branch catches `e`. -/
def failMsg (e : Exn) : String := "All PDF conversion methods failed: " ++ e.msg

/-- Message printed on line 53. -/
def altMsg : String := "\nAlternative solutions:"

/-- Remediation hint printed on line 54. -/
def hint1 : String := "1. Open the HTML file in a browser and use Print > Save as PDF"

/-- Remediation hint printed on line 55. -/
def hint2 : String := "2. Install pandoc: brew install pandoc"

/-- Remediation hint printed on line 56. -/
def hint3 : String := "3. Install wkhtmltopdf: brew install wkhtmltopdf"

/-- Message printed on line 57. -/
def availMsg : String := "\nHTML file is available at: " ++ html_file

/-- The shell script text built by the f-string on lines 35-39,
with `html_file` interpolated (triple-quoted string: leading newline,
8-space indentation on each line, trailing 8 spaces). -/
def script : String :=
  "\n        open -a Safari \"" ++ html_file ++
  "\"\n        sleep 3\n        osascript -e \x27tell application \"Safari\" to print the front document\x27\n        "

/-- Attempt A (lines 10-18): probe for wkhtmltopdf with `which`; on exit
code 0 invoke it and print success.  The whole block is wrapped in a
bare `except: pass`, so any exception falls through silently.  Returns
the events of this block and whether the function returned (line 16). -/
def attemptA (env : Env) : List Event × Bool :=
  match env.whichOutcome with
  | .exn _ => ([.runProc ["which", "wkhtmltopdf"]], false)
  | .ret c =>
    if c = 0 then
      match env.toolOutcome with
      | .exn _ =>
        ([.runProc ["which", "wkhtmltopdf"], .runProc ["wkhtmltopdf", html_file, pdf_file]], false)
      | .ret _ =>
        ([.runProc ["which", "wkhtmltopdf"], .runProc ["wkhtmltopdf", html_file, pdf_file],
          .print wkhtmltopdfMsg], true)
    else
      ([.runProc ["which", "wkhtmltopdf"]], false)

/-- How Attempt B terminates: function returned (line 25), fell through
to Attempt C (the `except ImportError: pass` on lines 26-27), or an
exception escaped `html_to_pdf` uncaught. -/
inductive BOut where
  | done
  | fall
  | uncaught (e : Exn)
deriving DecidableEq

/-- Attempt B (lines 20-27): `import weasyprint`, render, print, return.
Only `ImportError` is caught (whether from the import or from the
render call); any other exception propagates. -/
def attemptB (env : Env) : List Event × BOut :=
  if env.weasyAvailable then
    match env.renderOutcome with
    | none => ([.importMod "weasyprint", .render html_file pdf_file, .print weasyMsg], .done)
    | some e =>
      if e.name = "ImportError" then
        ([.importMod "weasyprint", .render html_file pdf_file], .fall)
      else
        ([.importMod "weasyprint", .render html_file pdf_file], .uncaught e)
  else
    ([.importMod "weasyprint"], .fall)

/-- Body of the `try` block of Attempt C (lines 29-49): create the temp
script, chmod it, execute it, unlink it, print the Safari message.
Each step may raise; the first exception aborts the rest of the block
(in particular a raising `subprocess.run` skips the `os.unlink`, which
is not in a `finally`).  Returns the events performed and the
exception, if any. -/
def attemptCBody (env : Env) : List Event × Option Exn :=
  match env.tmpCreateOutcome with
  | some e => ([], some e)
  | none =>
    match env.chmodOutcome with
    | some e => ([.createTemp env.tmpPath script], some e)
    | none =>
      match env.scriptRunOutcome with
      | .exn e =>
        ([.createTemp env.tmpPath script, .chmod env.tmpPath 0o755, .runProc [env.tmpPath]], some e)
      | .ret _ =>
        match env.unlinkOutcome with
        | some e =>
          ([.createTemp env.tmpPath script, .chmod env.tmpPath 0o755, .runProc [env.tmpPath],
            .unlink env.tmpPath], some e)
        | none =>
          ([.createTemp env.tmpPath script, .chmod env.tmpPath 0o755, .runProc [env.tmpPath],
            .unlink env.tmpPath, .print safariMsg], none)

/-- Attempt C with its handler (lines 29-57): any exception raised in
the body is caught by `except Exception as e` and the diagnostic
messages of lines 52-57 are printed.  This branch always completes. -/
def attemptC (env : Env) : List Event :=
  match (attemptCBody env).2 with
  | none => (attemptCBody env).1
  | some e =>
    (attemptCBody env).1 ++
      [.print (failMsg e), .print altMsg, .print hint1, .print hint2, .print hint3, .print availMsg]

/-- Whether `html_to_pdf` returned normally or let an exception escape. -/
inductive Result where
  | normal
  | uncaught (e : Exn)
deriving DecidableEq

/-- The function `html_to_pdf` (lines 6-57): Attempt A, then on
fall-through Attempt B, then on fall-through Attempt C.  Produces the
full event trace and the termination result. -/
def html_to_pdf (env : Env) : List Event × Result :=
  if (attemptA env).2 then
    ((attemptA env).1, .normal)
  else
    match (attemptB env).2 with
    | .done => ((attemptA env).1 ++ (attemptB env).1, .normal)
    | .uncaught e => ((attemptA env).1 ++ (attemptB env).1, .uncaught e)
    | .fall => ((attemptA env).1 ++ (attemptB env).1 ++ attemptC env, .normal)

/-- Process exit status of `python3 html_to_pdf.py` (lines 59-60):
0 when `html_to_pdf` returns, 1 when an exception escapes uncaught
(Python prints a traceback and exits 1). -/
def exitCode (env : Env) : Nat :=
  match (html_to_pdf env).2 with
  | .normal => 0
  | .uncaught _ => 1

/-- `startsWith pat l` is true when `pat` is an initial segment of `l`. -/
def startsWith : List Char → List Char → Bool
  | [], _ => true
  | _ :: _, [] => false
  | a :: as, b :: bs => a = b && startsWith as bs

/-- `occursIn pat l` is true when `pat` occurs contiguously inside `l`
(Python `pat in l` on strings). -/
def occursIn (pat : List Char) : List Char → Bool
  | [] => startsWith pat []
  | b :: bs => startsWith pat (b :: bs) || occursIn pat bs

/-- Whether an event mentions the string `needle` anywhere (in a
process argument, printed text, module name, path or file content). -/
def mentionsStr (needle : String) (ev : Event) : Bool :=
  match ev with
  | .runProc args => args.any (fun a => occursIn needle.data a.data)
  | .print s => occursIn needle.data s.data
  | .importMod m => occursIn needle.data m.data
  | .render i o => occursIn needle.data i.data || occursIn needle.data o.data
  | .createTemp p c => occursIn needle.data p.data || occursIn needle.data c.data
  | .chmod p _ => occursIn needle.data p.data
  | .unlink p => occursIn needle.data p.data

/-- Split a character list on newline characters. -/
def splitLines : List Char → List (List Char)
  | [] => [[]]
  | c :: cs =>
    if c = '\n' then [] :: splitLines cs
    else
      match splitLines cs with
      | [] => [[c]]
      | l :: ls => (c :: l) :: ls

/-- Strip leading and trailing space characters. -/
def trimSpaces (l : List Char) : List Char :=
  ((l.dropWhile (fun c => c = ' ')).reverse.dropWhile (fun c => c = ' ')).reverse

/-- The non-blank lines of the fallback shell script, with indentation
stripped: the commands the script consists of, in order. -/
def scriptSteps : List (List Char) :=
  ((splitLines script.data).map trimSpaces).filter (fun l => !l.isEmpty)

/-- Recognize a `createTemp` event. -/
def isCreateTemp : Event → Bool
  | .createTemp _ _ => true
  | _ => false

/-- Recognize a `chmod` event. -/
def isChmod : Event → Bool
  | .chmod _ _ => true
  | _ => false

/-- Recognize an `unlink` event. -/
def isUnlink : Event → Bool
  | .unlink _ => true
  | _ => false

/-- Recognize the execution of the file at path `p` as a process. -/
def isRunOf (p : String) : Event → Bool
  | .runProc [q] => q = p
  | _ => false

/-- Recognize the wkhtmltopdf invocation with the two fixed paths. -/
def isWkInvoke (ev : Event) : Bool :=
  ev = Event.runProc ["wkhtmltopdf", html_file, pdf_file]

/-- Recognize a `render` event. -/
def isRender : Event → Bool
  | .render _ _ => true
  | _ => false

def envOkTool : Env := ⟨.ret 0, .ret 2, false, none, "/tmp/tmpa.sh", none, none, .ret 0, none⟩

def envWeasyOk : Env := ⟨.ret 1, .ret 0, true, none, "/tmp/tmpb.sh", none, none, .ret 0, none⟩

def envRenderBoom : Env :=
  ⟨.ret 1, .ret 0, true, some ⟨"OSError", "boom"⟩, "/tmp/tmpc.sh", none, none, .ret 0, none⟩

def envFallbackOk : Env := ⟨.ret 1, .ret 0, false, none, "/tmp/tmpd.sh", none, none, .ret 1, none⟩

def envScriptRaise : Env :=
  ⟨.ret 1, .ret 0, false, none, "/tmp/tmpe.sh", none, none, .exn ⟨"PermissionError", "denied"⟩, none⟩

def envProbeRaise : Env :=
  ⟨.exn ⟨"OSError", "nope"⟩, .ret 0, false, none, "/tmp/tmpf.sh", none, none, .ret 0, none⟩

def envToolRaise : Env :=
  ⟨.ret 0, .exn ⟨"FileNotFoundError", "gone"⟩, false, none, "/tmp/tmpg.sh", none, none, .ret 0, none⟩

def envChmodBoom : Env :=
  ⟨.ret 1, .ret 0, false, none, "/tmp/tmph.sh", none, some ⟨"OSError", "chmod failed"⟩, .ret 0, none⟩

theorem string_data_append (a b : String) : (a ++ b).data = a.data ++ b.data := rfl

theorem occursIn_nil_pat (l : List Char) : occursIn [] l = true := by
  cases l <;> simp [occursIn, startsWith]

theorem startsWith_self_append (p t : List Char) : startsWith p (p ++ t) = true := by
  induction p with
  | nil => rfl
  | cons a as ih => simp [startsWith, ih]

theorem occursIn_append_left (p t : List Char) : occursIn p (p ++ t) = true := by
  cases p with
  | nil => exact occursIn_nil_pat t
  | cons a as =>
    have h1 : startsWith (a :: as) ((a :: as) ++ t) = true := startsWith_self_append _ t
    simp only [List.cons_append] at h1
    simp [occursIn, h1]

theorem occursIn_mid (s p t : List Char) : occursIn p (s ++ (p ++ t)) = true := by
  induction s with
  | nil => simpa using occursIn_append_left p t
  | cons b bs ih => simp [occursIn, ih]

theorem attemptB_uncaught_inv (env : Env) (e : Exn) (h : (attemptB env).2 = BOut.uncaught e) :
    env.weasyAvailable = true ∧ env.renderOutcome = some e ∧ e.name ≠ "ImportError" := by
  unfold attemptB at h
  by_cases hw : env.weasyAvailable
  · rcases hr : env.renderOutcome with _ | e'
    · simp [hw, hr] at h
    · by_cases hn : e'.name = "ImportError"
      · simp [hw, hr, hn] at h
      · simp [hw, hr, hn] at h
        exact ⟨hw, congrArg some h, h ▸ hn⟩
  · simp [hw] at h

theorem importMod_mem_attemptB (env : Env) : Event.importMod "weasyprint" ∈ (attemptB env).1 := by
  unfold attemptB
  by_cases hw : env.weasyAvailable
  · rcases hr : env.renderOutcome with _ | e
    · simp [hw, hr]
    · by_cases hn : e.name = "ImportError" <;> simp [hw, hr, hn]
  · simp [hw]

theorem html_to_pdf_fall (env : Env) (hA : (attemptA env).2 = false) (hB : (attemptB env).2 = BOut.fall) :
    html_to_pdf env = ((attemptA env).1 ++ (attemptB env).1 ++ attemptC env, Result.normal) := by
  unfold html_to_pdf
  simp [hA, hB]

theorem attemptA_fall_cases (env : Env) (hA : (attemptA env).2 = false) :
    (attemptA env).1 = [Event.runProc ["which", "wkhtmltopdf"]] ∨
    (attemptA env).1 = [Event.runProc ["which", "wkhtmltopdf"],
      Event.runProc ["wkhtmltopdf", html_file, pdf_file]] := by
  unfold attemptA at hA ⊢
  rcases hw : env.whichOutcome with c | e
  · by_cases hc : c = 0
    · rcases ht : env.toolOutcome with c' | e'
      · simp [hw, hc, ht] at hA
      · simp [hw, hc, ht]
    · simp [hw, hc]
  · simp [hw]

theorem attemptB_fall_cases (env : Env) (hB : (attemptB env).2 = BOut.fall) :
    (attemptB env).1 = [Event.importMod "weasyprint"] ∨
    (attemptB env).1 = [Event.importMod "weasyprint", Event.render html_file pdf_file] := by
  unfold attemptB at hB ⊢
  by_cases hw : env.weasyAvailable
  · rcases hr : env.renderOutcome with _ | e
    · simp [hw, hr] at hB
    · by_cases hn : e.name = "ImportError"
      · simp [hw, hr, hn]
      · simp [hw, hr, hn] at hB
  · simp [hw]

theorem tool_path_trace (env : Env) (n : Int)
    (hw : env.whichOutcome = RunOutcome.ret 0) (ht : env.toolOutcome = RunOutcome.ret n) :
    html_to_pdf env = ([Event.runProc ["which", "wkhtmltopdf"],
      Event.runProc ["wkhtmltopdf", html_file, pdf_file], Event.print wkhtmltopdfMsg],
      Result.normal) := by
  unfold html_to_pdf attemptA
  simp [hw, ht]

theorem attemptC_filter_isRender (env : Env) : (attemptC env).filter isRender = [] := by
  unfold attemptC attemptCBody
  rcases h1 : env.tmpCreateOutcome with _ | e1
  · rcases h2 : env.chmodOutcome with _ | e2
    · rcases h3 : env.scriptRunOutcome with c | e3
      · rcases h4 : env.unlinkOutcome with _ | e4
        · simp [isRender]
        · simp [isRender]
      · simp [isRender]
    · simp [isRender]
  · simp [isRender]

/-- C1 (counterexample): with wkhtmltopdf absent, weasyprint importable
and the render call raising an OSError, the exception escapes
`html_to_pdf` uncaught and the process exit status is 1, not 0. -/
theorem c1_counterexample : exitCode envRenderBoom ≠ 0 := by decide

/-- C1 (amended): the process exit status is 0 in every execution in
which the Attempt B render call does not raise a non-ImportError
exception; no other branch can let an exception escape uncaught. -/
theorem c1_exit_zero (env : Env)
    (h : ∀ e, env.renderOutcome = some e → e.name = "ImportError") :
    exitCode env = 0 := by
  unfold exitCode html_to_pdf
  by_cases hA : (attemptA env).2
  · simp [hA]
  · rcases hB : (attemptB env).2 with _ | _ | e
    · simp [hA, hB]
    · simp [hA, hB]
    · obtain ⟨hw, hr, hn⟩ := attemptB_uncaught_inv env e hB
      exact absurd (h e hr) hn

theorem c1_witness :
    (∀ e, envWeasyOk.renderOutcome = some e → e.name = "ImportError") ∧ exitCode envWeasyOk = 0 :=
  ⟨fun e he => by simp [envWeasyOk] at he, c1_exit_zero envWeasyOk (fun e he => by simp [envWeasyOk] at he)⟩

/-- C2 (counterexample): when executing the temporary script raises an
exception, the `os.unlink` on line 47 is skipped (it is not in a
`finally` block): the script was executed but never deleted,
contradicting the claim that deletion is unconditional. -/
theorem c2_counterexample :
    Event.runProc [envScriptRaise.tmpPath] ∈ (html_to_pdf envScriptRaise).1 ∧
    Event.unlink envScriptRaise.tmpPath ∉ (html_to_pdf envScriptRaise).1 := by
  decide

/-- C2 (amended): when the fallback branch runs and none of its steps
raises, the temporary script is created, made executable, executed and
deleted exactly once, in that order; the deletion still happens when
the executed script exits with a failing status (any exit code `c`),
but not when the execution raises an exception. -/
theorem c2_temp_script_lifecycle (env : Env) (c : Int)
    (hA : (attemptA env).2 = false) (hB : (attemptB env).2 = BOut.fall)
    (h1 : env.tmpCreateOutcome = none) (h2 : env.chmodOutcome = none)
    (h3 : env.scriptRunOutcome = RunOutcome.ret c) (h4 : env.unlinkOutcome = none) :
    attemptC env = [Event.createTemp env.tmpPath script, Event.chmod env.tmpPath 0o755,
      Event.runProc [env.tmpPath], Event.unlink env.tmpPath, Event.print safariMsg] ∧
    ((html_to_pdf env).1.filter isCreateTemp).length = 1 ∧
    ((html_to_pdf env).1.filter isChmod).length = 1 ∧
    ((html_to_pdf env).1.filter (isRunOf env.tmpPath)).length = 1 ∧
    ((html_to_pdf env).1.filter isUnlink).length = 1 := by
  have hC : attemptC env = [Event.createTemp env.tmpPath script, Event.chmod env.tmpPath 0o755,
      Event.runProc [env.tmpPath], Event.unlink env.tmpPath, Event.print safariMsg] := by
    unfold attemptC attemptCBody
    simp [h1, h2, h3, h4]
  have hT : (html_to_pdf env).1 = (attemptA env).1 ++ (attemptB env).1 ++ attemptC env := by
    rw [html_to_pdf_fall env hA hB]
  refine ⟨hC, ?_⟩
  rw [hT, hC]
  rcases attemptA_fall_cases env hA with ha | ha <;>
    rcases attemptB_fall_cases env hB with hb | hb <;>
    rw [ha, hb] <;>
    simp [List.filter_append, isCreateTemp, isChmod, isRunOf, isUnlink]

theorem c2_witness :
    (attemptA envFallbackOk).2 = false ∧ (attemptB envFallbackOk).2 = BOut.fall ∧
    envFallbackOk.scriptRunOutcome = RunOutcome.ret 1 ∧
    attemptC envFallbackOk = [Event.createTemp envFallbackOk.tmpPath script,
      Event.chmod envFallbackOk.tmpPath 0o755, Event.runProc [envFallbackOk.tmpPath],
      Event.unlink envFallbackOk.tmpPath, Event.print safariMsg] ∧
    ((html_to_pdf envFallbackOk).1.filter isUnlink).length = 1 :=
  ⟨by decide, by decide, rfl,
    (c2_temp_script_lifecycle envFallbackOk 1 (by decide) (by decide) rfl rfl rfl rfl).1,
    (c2_temp_script_lifecycle envFallbackOk 1 (by decide) (by decide) rfl rfl rfl rfl).2.2.2.2⟩

/-- C3 (counterexample): with the probe reporting wkhtmltopdf available
but the tool invocation raising, the bare except falls through and
Attempt B executes, contradicting the claim that neither Attempt B nor
Attempt C executes whenever the probe reports exit code 0. -/
theorem c3_counterexample :
    envToolRaise.whichOutcome = RunOutcome.ret 0 ∧
    Event.importMod "weasyprint" ∈ (html_to_pdf envToolRaise).1 := by
  decide

/-- C3 (amended): when the probe reports wkhtmltopdf available and the
tool invocation completes (with any exit code), the tool is invoked
exactly once with the fixed HTML and PDF paths and neither Attempt B
nor Attempt C executes. -/
theorem c3_tool_once (env : Env) (n : Int)
    (hw : env.whichOutcome = RunOutcome.ret 0) (ht : env.toolOutcome = RunOutcome.ret n) :
    ((html_to_pdf env).1.filter isWkInvoke).length = 1 ∧
    (∀ m, Event.importMod m ∉ (html_to_pdf env).1) ∧
    (∀ i o, Event.render i o ∉ (html_to_pdf env).1) ∧
    (∀ p s, Event.createTemp p s ∉ (html_to_pdf env).1) ∧
    (∀ p, Event.unlink p ∉ (html_to_pdf env).1) := by
  have h := tool_path_trace env n hw ht
  rw [h]
  refine ⟨by decide, ?_, ?_, ?_, ?_⟩
  · intro m hm
    simp at hm
  · intro i o hm
    simp at hm
  · intro p s hm
    simp at hm
  · intro p hm
    simp at hm

theorem c3_witness :
    envOkTool.whichOutcome = RunOutcome.ret 0 ∧ envOkTool.toolOutcome = RunOutcome.ret 2 ∧
    ((html_to_pdf envOkTool).1.filter isWkInvoke).length = 1 ∧
    (∀ m, Event.importMod m ∉ (html_to_pdf envOkTool).1) :=
  ⟨rfl, rfl, (c3_tool_once envOkTool 2 rfl rfl).1, (c3_tool_once envOkTool 2 rfl rfl).2.1⟩

/-- C4: when Attempt A falls through, weasyprint is importable and the
render call raises an exception that is not an ImportError, the
exception is handled nowhere in `html_to_pdf` and propagates to the
caller uncaught. -/
theorem c4_render_exn_propagates (env : Env) (e : Exn)
    (hA : (attemptA env).2 = false) (hw : env.weasyAvailable = true)
    (hr : env.renderOutcome = some e) (hn : e.name ≠ "ImportError") :
    (html_to_pdf env).2 = Result.uncaught e := by
  unfold html_to_pdf
  have hB : (attemptB env).2 = BOut.uncaught e := by
    unfold attemptB
    simp [hw, hr, hn]
  simp [hA, hB]

theorem c4_witness :
    (attemptA envRenderBoom).2 = false ∧ envRenderBoom.weasyAvailable = true ∧
    envRenderBoom.renderOutcome = some ⟨"OSError", "boom"⟩ ∧
    (html_to_pdf envRenderBoom).2 = Result.uncaught ⟨"OSError", "boom"⟩ :=
  ⟨by decide, rfl, rfl,
    c4_render_exn_propagates envRenderBoom ⟨"OSError", "boom"⟩ (by decide) rfl rfl (by decide)⟩

/-- C5 (counterexample): with the probe reporting wkhtmltopdf
unavailable and weasyprint importable, a render call that raises a
non-ImportError exception makes `html_to_pdf` terminate by propagating
the exception: the function does not return as the claim states. -/
theorem c5_counterexample :
    envRenderBoom.whichOutcome = RunOutcome.ret 1 ∧ envRenderBoom.weasyAvailable = true ∧
    (html_to_pdf envRenderBoom).2 ≠ Result.normal := by
  decide

/-- C5 (amended): when the probe reports wkhtmltopdf unavailable (exit
code `c ≠ 0`) and weasyprint is importable, the render call is invoked
exactly once, with the fixed HTML and PDF paths; and if the render
call does not raise, the function returns normally without running
Attempt C. -/
theorem c5_render_once (env : Env) (c : Int)
    (hw : env.whichOutcome = RunOutcome.ret c) (hc : c ≠ 0) (ha : env.weasyAvailable = true) :
    Event.render html_file pdf_file ∈ (html_to_pdf env).1 ∧
    ((html_to_pdf env).1.filter isRender).length = 1 ∧
    (env.renderOutcome = none →
      html_to_pdf env = ([Event.runProc ["which", "wkhtmltopdf"], Event.importMod "weasyprint",
        Event.render html_file pdf_file, Event.print weasyMsg], Result.normal)) := by
  have hA1 : (attemptA env).1 = [Event.runProc ["which", "wkhtmltopdf"]] := by
    unfold attemptA
    simp [hw, hc]
  have hA2 : (attemptA env).2 = false := by
    unfold attemptA
    simp [hw, hc]
  rcases hr : env.renderOutcome with _ | e
  · have hBfull : attemptB env = ([Event.importMod "weasyprint",
        Event.render html_file pdf_file, Event.print weasyMsg], BOut.done) := by
      unfold attemptB
      simp [ha, hr]
    have hfull : html_to_pdf env = ([Event.runProc ["which", "wkhtmltopdf"],
        Event.importMod "weasyprint", Event.render html_file pdf_file, Event.print weasyMsg],
        Result.normal) := by
      unfold html_to_pdf
      rw [hBfull]
      simp [hA2, hA1]
    rw [hfull]
    exact ⟨by simp, by decide, fun _ => rfl⟩
  · by_cases hn : e.name = "ImportError"
    · have hBfull : attemptB env = ([Event.importMod "weasyprint",
          Event.render html_file pdf_file], BOut.fall) := by
        unfold attemptB
        simp [ha, hr, hn]
      have hT : (html_to_pdf env).1 = (attemptA env).1 ++ (attemptB env).1 ++ attemptC env := by
        rw [html_to_pdf_fall env hA2 (by rw [hBfull])]
      refine ⟨?_, ?_, fun h => absurd h (by simp)⟩
      · rw [hT, hA1, hBfull]
        simp
      · rw [hT, hA1, hBfull]
        simp [List.filter_append, attemptC_filter_isRender, isRender]
    · have hBfull : attemptB env = ([Event.importMod "weasyprint",
          Event.render html_file pdf_file], BOut.uncaught e) := by
        unfold attemptB
        simp [ha, hr, hn]
      have hfull : html_to_pdf env = ([Event.runProc ["which", "wkhtmltopdf"],
          Event.importMod "weasyprint", Event.render html_file pdf_file], Result.uncaught e) := by
        unfold html_to_pdf
        rw [hBfull]
        simp [hA2, hA1]
      rw [hfull]
      exact ⟨by simp, by simp [isRender], fun h => absurd h (by simp)⟩

theorem c5_witness :
    envWeasyOk.whichOutcome = RunOutcome.ret 1 ∧ (1 : Int) ≠ 0 ∧
    envWeasyOk.weasyAvailable = true ∧
    Event.render html_file pdf_file ∈ (html_to_pdf envWeasyOk).1 ∧
    ((html_to_pdf envWeasyOk).1.filter isRender).length = 1 :=
  ⟨rfl, by decide, rfl, (c5_render_once envWeasyOk 1 rfl (by decide) rfl).1,
    (c5_render_once envWeasyOk 1 rfl (by decide) rfl).2.1⟩

/-- C6: whenever Attempts A and B fall through and some step of the
fallback body raises `e`, the handler prints a line containing
`All PDF conversion methods failed`, the three numbered remediation
hints, and a line containing the hard-coded HTML path verbatim. -/
theorem c6_failure_diagnostics (env : Env) (e : Exn)
    (hA : (attemptA env).2 = false) (hB : (attemptB env).2 = BOut.fall)
    (hC : (attemptCBody env).2 = some e) :
    (∃ s, Event.print s ∈ (html_to_pdf env).1 ∧
      occursIn ("All PDF conversion methods failed").data s.data = true) ∧
    Event.print hint1 ∈ (html_to_pdf env).1 ∧
    Event.print hint2 ∈ (html_to_pdf env).1 ∧
    Event.print hint3 ∈ (html_to_pdf env).1 ∧
    (∃ s, Event.print s ∈ (html_to_pdf env).1 ∧ occursIn html_file.data s.data = true) := by
  have hT : (html_to_pdf env).1 = (attemptA env).1 ++ (attemptB env).1 ++ attemptC env := by
    rw [html_to_pdf_fall env hA hB]
  have hCtr : attemptC env = (attemptCBody env).1 ++ [Event.print (failMsg e), Event.print altMsg,
      Event.print hint1, Event.print hint2, Event.print hint3, Event.print availMsg] := by
    unfold attemptC
    rw [hC]
  have hfail : occursIn ("All PDF conversion methods failed").data (failMsg e).data = true := by
    have hd : (failMsg e).data =
        ("All PDF conversion methods failed").data ++ ((": ").data ++ e.msg.data) := by
      show ("All PDF conversion methods failed: " ++ e.msg).data = _
      rw [string_data_append]
      have : ("All PDF conversion methods failed: ").data =
          ("All PDF conversion methods failed").data ++ (": ").data := by decide
      rw [this, List.append_assoc]
    rw [hd]
    exact occursIn_append_left _ _
  have havail : occursIn html_file.data availMsg.data = true := by
    have hd : availMsg.data = ("\nHTML file is available at: ").data ++ html_file.data := by
      show ("\nHTML file is available at: " ++ html_file).data = _
      rw [string_data_append]
    rw [hd]
    have := occursIn_mid ("\nHTML file is available at: ").data html_file.data []
    simpa using this
  rw [hT, hCtr]
  refine ⟨⟨failMsg e, by simp, hfail⟩, by simp, by simp, by simp, ⟨availMsg, by simp, havail⟩⟩

theorem c6_witness :
    (attemptA envChmodBoom).2 = false ∧ (attemptB envChmodBoom).2 = BOut.fall ∧
    (attemptCBody envChmodBoom).2 = some ⟨"OSError", "chmod failed"⟩ ∧
    (Event.print hint1 ∈ (html_to_pdf envChmodBoom).1 ∧
      Event.print hint2 ∈ (html_to_pdf envChmodBoom).1 ∧
      Event.print hint3 ∈ (html_to_pdf envChmodBoom).1) ∧
    (∃ s, Event.print s ∈ (html_to_pdf envChmodBoom).1 ∧
      occursIn html_file.data s.data = true) := by
  have h := c6_failure_diagnostics envChmodBoom ⟨"OSError", "chmod failed"⟩
    (by decide) (by decide) rfl
  exact ⟨by decide, by decide, rfl, ⟨h.2.1, h.2.2.1, h.2.2.2.1⟩, h.2.2.2.2⟩

/-- C7: when the probe reports wkhtmltopdf available and the tool runs
returning exit code `n`, the trace and result are the same for every
`n`: the exit status of the tool is never inspected, the success message is
printed, and the function returns immediately. -/
theorem c7_tool_status_ignored (env : Env) (n : Int)
    (hw : env.whichOutcome = RunOutcome.ret 0) (ht : env.toolOutcome = RunOutcome.ret n) :
    html_to_pdf env = ([Event.runProc ["which", "wkhtmltopdf"],
      Event.runProc ["wkhtmltopdf", html_file, pdf_file], Event.print wkhtmltopdfMsg],
      Result.normal) :=
  tool_path_trace env n hw ht

theorem c7_witness :
    envOkTool.whichOutcome = RunOutcome.ret 0 ∧ envOkTool.toolOutcome = RunOutcome.ret 2 ∧
    html_to_pdf envOkTool = ([Event.runProc ["which", "wkhtmltopdf"],
      Event.runProc ["wkhtmltopdf", html_file, pdf_file], Event.print wkhtmltopdfMsg],
      Result.normal) :=
  ⟨rfl, rfl, c7_tool_status_ignored envOkTool 2 rfl rfl⟩

/-- C8: the fallback shell script consists of exactly three steps in
order: open the HTML file in Safari, an unconditional `sleep 3`, then
an osascript command telling Safari to print the front document. -/
theorem c8_script_three_steps :
    scriptSteps = [("open -a Safari \"" ++ html_file ++ "\"").data, ("sleep 3").data,
      ("osascript -e \x27tell application \"Safari\" to print the front document\x27").data] := by
  decide

/-- C9: on a completed fallback run, the generated script mentions the
HTML path but never the PDF path, the success message points at the
Downloads folder and not at the PDF path, and no event of Attempt C
mentions the PDF path (assuming the temp-file name does not contain
it, which `tempfile` guarantees in practice). -/
theorem c9_fallback_never_touches_pdf_path (env : Env) (c : Int)
    (h0 : occursIn pdf_file.data env.tmpPath.data = false)
    (h1 : env.tmpCreateOutcome = none) (h2 : env.chmodOutcome = none)
    (h3 : env.scriptRunOutcome = RunOutcome.ret c) (h4 : env.unlinkOutcome = none) :
    occursIn html_file.data script.data = true ∧
    occursIn pdf_file.data script.data = false ∧
    occursIn ("Downloads").data safariMsg.data = true ∧
    occursIn pdf_file.data safariMsg.data = false ∧
    ∀ ev ∈ attemptC env, mentionsStr pdf_file ev = false := by
  refine ⟨by decide, by decide, by decide, by decide, ?_⟩
  have hC : attemptC env = [Event.createTemp env.tmpPath script, Event.chmod env.tmpPath 0o755,
      Event.runProc [env.tmpPath], Event.unlink env.tmpPath, Event.print safariMsg] := by
    unfold attemptC attemptCBody
    simp [h1, h2, h3, h4]
  rw [hC]
  intro ev hev
  simp only [List.mem_cons, List.not_mem_nil, or_false] at hev
  rcases hev with rfl | rfl | rfl | rfl | rfl
  · simp only [mentionsStr, h0, Bool.false_or]
    decide
  · simpa [mentionsStr] using h0
  · simp [mentionsStr, h0]
  · simpa [mentionsStr] using h0
  · decide

theorem c9_witness :
    occursIn pdf_file.data envFallbackOk.tmpPath.data = false ∧
    envFallbackOk.tmpCreateOutcome = none ∧
    (occursIn html_file.data script.data = true ∧
      occursIn pdf_file.data script.data = false ∧
      ∀ ev ∈ attemptC envFallbackOk, mentionsStr pdf_file ev = false) := by
  have h := c9_fallback_never_touches_pdf_path envFallbackOk 1 (by decide) rfl rfl rfl rfl
  exact ⟨by decide, rfl, h.1, h.2.1, h.2.2.2.2⟩

/-- C10: when the which probe raises, or the probe reports available
and the wkhtmltopdf invocation raises, the bare except swallows the
exception: Attempt A falls through with nothing printed and control
reaches Attempt B (its import of weasyprint appears in the trace). -/
theorem c10_bare_except (env : Env)
    (h : (∃ e, env.whichOutcome = RunOutcome.exn e) ∨
      (env.whichOutcome = RunOutcome.ret 0 ∧ ∃ e, env.toolOutcome = RunOutcome.exn e)) :
    (attemptA env).2 = false ∧ (∀ s, Event.print s ∉ (attemptA env).1) ∧
    Event.importMod "weasyprint" ∈ (html_to_pdf env).1 := by
  have hA : (attemptA env).2 = false ∧ (∀ s, Event.print s ∉ (attemptA env).1) := by
    unfold attemptA
    rcases h with ⟨e, he⟩ | ⟨h0, e, he⟩
    · refine ⟨by simp [he], ?_⟩
      intro s hs
      simp [he] at hs
    · refine ⟨by simp [h0, he], ?_⟩
      intro s hs
      simp [h0, he] at hs
  refine ⟨hA.1, hA.2, ?_⟩
  unfold html_to_pdf
  rcases hB : (attemptB env).2 with _ | _ | e <;>
    simp [hA.1, hB, importMod_mem_attemptB env]

theorem c10_witness :
    (∃ e, envProbeRaise.whichOutcome = RunOutcome.exn e) ∧
    (attemptA envProbeRaise).2 = false ∧
    (∀ s, Event.print s ∉ (attemptA envProbeRaise).1) ∧
    Event.importMod "weasyprint" ∈ (html_to_pdf envProbeRaise).1 := by
  have h := c10_bare_except envProbeRaise (Or.inl ⟨⟨"OSError", "nope"⟩, rfl⟩)
  exact ⟨⟨⟨"OSError", "nope"⟩, rfl⟩, h.1, h.2.1, h.2.2⟩

end HtmlToPdf
